import Mathlib

/-!
Shallow embedding of `surfline2influxdb` (src/main.go) in Lean 4.

The program fetches wind / wave / tide / rating forecasts per configured
spot, converts each record into InfluxDB points (two tag variants per
record: one with an `age_h` tag, one without), and writes them.  A
retry loop in `main` drives `fetchAndInsert` per spot, up to
`maxRetries` attempts with `retryDelay` sleeps between attempts, and a
channel-counting loop collects one terminal message per spot.

Modelling conventions:
* machine integers are `Int` / `Nat`; epoch timestamps are `Int` seconds;
* Go `float64` attribute values are modelled as `Rat` (the program only
  copies them verbatim into field maps, never computes with them);
* Go's `int(float64)` conversion truncates toward zero, modelled by
  `Int.tdiv` on the exact second count;
* a Go `(resp *T, err error)` pair is `Option T × Option String`
  (`none` response = nil pointer, `none` error = nil error);
* Go maps used for tags/fields are association lists holding the
  entries in the textual order of the source composite literal; map
  semantics is recovered through `List.lookup`;
* the InfluxDB write API is a sink `Nat → Option String` giving, per
  write-call index, `none` on success or `some msg` on failure; the
  code only prints the failure and continues, so the model records a
  `(point, result)` log entry per attempted write;
* `fmt.Sprintf` float formatting (`%f`) is abstracted by `toString` on
  `Rat`; no claim depends on the digits of the rendered string.
-/

namespace Surfline2Influxdb

/-- Value stored in an InfluxDB field map (`map[string]interface{}` in Go):
the program puts strings, floats and ints there. -/
inductive FieldValue where
  | str (s : String)
  | num (q : Rat)
  | int (n : Int)
deriving DecidableEq, Repr

/-- InfluxDB point: measurement name, tag map, field map, event timestamp
(epoch seconds; the code always passes `time.Unix(record.Timestamp, 0)`). -/
structure Point where
  measurement : String
  tags : List (String × String)
  fields : List (String × FieldValue)
  timestamp : Int
deriving DecidableEq, Repr

/-- Constant `maxRetries = 3` from main.go. -/
def maxRetries : Nat := 3

/-- Constant `retryDelay = 5 * time.Second` from main.go, in seconds. -/
def retryDelaySec : Nat := 5

/-- Translation of `getFriendlyNameForSpot` (main.go): static switch over
four known spot ids, defaulting to "Unknown". -/
def getFriendlyNameForSpot (spotId : String) : String :=
  if spotId = "5842041f4e65fad6a7708841" then "Pacific Beach"
  else if spotId = "5842041f4e65fad6a770883c" then "Windansea Beach"
  else if spotId = "5842041f4e65fad6a77088cc" then "La Jolla Shores"
  else if spotId = "5842041f4e65fad6a770883f" then "Ocean Beach"
  else "Unknown"

/-- Age computation common to all four insert functions:
`int(currentTime.Sub(forecastTime).Hours())` where both times are exact
to the second.  Go truncates the float toward zero, which on exact
second counts is `Int.tdiv` by 3600. -/
def forecastAgeHours (now ts : Int) : Int := Int.tdiv (now - ts) 3600

/-- Rendering of `fmt.Sprintf("%f,%f", lat, lon)`; the exact float
formatting is abstracted, only that both variants render the same
coordinates the same way matters to any claim. -/
def formatLocation (lat lon : Rat) : String := toString lat ++ "," ++ toString lon

/-! Decoded response shapes, restricted to the attributes main.go reads. -/

/-- Coordinate pair (`Associated.Location` of the wind response). -/
structure Location where
  lat : Rat
  lon : Rat
deriving DecidableEq, Repr

/-- One swell component nested in a wave record. -/
structure Swell where
  height : Rat
  period : Rat
  impact : Rat
  power : Rat
  direction : Rat
  directionMin : Rat
  optimalScore : Int
deriving DecidableEq, Repr

/-- Raw surf bounds (`waveData.Surf.Raw`). -/
structure SurfRaw where
  min : Rat
  max : Rat
deriving DecidableEq, Repr

/-- Surf block of a wave record. -/
structure SurfInfo where
  min : Rat
  max : Rat
  optimalScore : Int
  humanRelation : String
  raw : SurfRaw
deriving DecidableEq, Repr

/-- One wave record (`waveForecast.Data.Wave` element). -/
structure WaveData where
  timestamp : Int
  utcOffset : Int
  probability : Rat
  surf : SurfInfo
  power : Rat
  swells : List Swell
deriving DecidableEq, Repr

/-- Wave forecast response (the parts main.go dereferences). -/
structure WaveForecastResponse where
  wave : List WaveData
deriving DecidableEq, Repr

/-- One wind record (`windForecast.Data.Wind` element). -/
structure WindDetail where
  timestamp : Int
  speed : Rat
  direction : Rat
  directionType : String
  gust : Rat
  optimalScore : Int
  utcOffset : Int
deriving DecidableEq, Repr

/-- Wind forecast response: record list plus the associated location
shared by the batch. -/
structure WindForecastResponse where
  wind : List WindDetail
  location : Location
deriving DecidableEq, Repr

/-- One tide record (`tideForecast.Data.Tides` element). -/
structure TideInfo where
  timestamp : Int
  type : String
  height : Rat
  utcOffset : Int
deriving DecidableEq, Repr

/-- Tide station metadata (`Associated.TideLocation`). -/
structure TideLocation where
  lat : Rat
  lon : Rat
  name : String
deriving DecidableEq, Repr

/-- Tide forecast response. -/
structure TideForecastResponse where
  tides : List TideInfo
  tideLocation : TideLocation
deriving DecidableEq, Repr

/-- One rating record (`ratingForecast.Data.Rating` element). -/
structure RatingData where
  timestamp : Int
  utcOffset : Int
  ratingKey : String
  ratingValue : Rat
deriving DecidableEq, Repr

/-- Spot forecast rating response. -/
structure SpotForecastRatingResponse where
  rating : List RatingData
deriving DecidableEq, Repr

/-! Point construction, one definition per insert function, in the exact
field/tag order of the Go composite literals.  Each record yields the
points in the order the Go code writes them. -/

/-- Tag map `tagsWithAge` of `insertWindForecastToInflux`, in source
literal order. -/
def windTagsWithAge (spotId : String) (loc : Location) (now ts : Int) :
    List (String × String) :=
  [("location", formatLocation loc.lat loc.lon),
   ("spotId", spotId),
   ("spotName", getFriendlyNameForSpot spotId),
   ("age_h", toString (forecastAgeHours now ts))]

/-- Tag map `tagsWithoutAge` of `insertWindForecastToInflux`. -/
def windTagsWithoutAge (spotId : String) (loc : Location) :
    List (String × String) :=
  [("location", formatLocation loc.lat loc.lon),
   ("spotId", spotId),
   ("spotName", getFriendlyNameForSpot spotId)]

/-- Field map of `insertWindForecastToInflux`, in source literal order. -/
def windFields (w : WindDetail) : List (String × FieldValue) :=
  [("speed", .num w.speed),
   ("direction", .num w.direction),
   ("directionType", .str w.directionType),
   ("gust", .num w.gust),
   ("optimalScore", .int w.optimalScore),
   ("utcOffset", .int w.utcOffset)]

/-- Points written for one wind record by `insertWindForecastToInflux`:
the `age_h`-bearing variant then the variant without it. -/
def windRecordPoints (spotId : String) (loc : Location) (now : Int)
    (w : WindDetail) : List Point :=
  [⟨"windForecast", windTagsWithAge spotId loc now w.timestamp, windFields w, w.timestamp⟩,
   ⟨"windForecast", windTagsWithoutAge spotId loc, windFields w, w.timestamp⟩]

/-- Translation of `insertWindForecastToInflux`: iterate over the wind
records, writing both tag variants of each. -/
def windPoints (spotId : String) (resp : WindForecastResponse) (now : Int) :
    List Point :=
  resp.wind.flatMap (windRecordPoints spotId resp.location now)

/-- Tag map `tagsWithAge` of `insertWaveForecastToInflux`. -/
def waveTagsWithAge (spotId : String) (now ts : Int) :
    List (String × String) :=
  [("spotId", spotId),
   ("spotName", getFriendlyNameForSpot spotId),
   ("age_h", toString (forecastAgeHours now ts))]

/-- Tag map `tagsWithoutAge` of `insertWaveForecastToInflux`. -/
def waveTagsWithoutAge (spotId : String) : List (String × String) :=
  [("spotId", spotId),
   ("spotName", getFriendlyNameForSpot spotId)]

/-- Field map for the wave point itself. -/
def waveFields (w : WaveData) : List (String × FieldValue) :=
  [("probability", .num w.probability),
   ("minSurf", .num w.surf.min),
   ("maxSurf", .num w.surf.max),
   ("optimalScore", .int w.surf.optimalScore),
   ("humanRelation", .str w.surf.humanRelation),
   ("rawMinSurf", .num w.surf.raw.min),
   ("rawMaxSurf", .num w.surf.raw.max),
   ("power", .num w.power),
   ("utcOffset", .int w.utcOffset)]

/-- Field map for one swell point. -/
def swellFields (s : Swell) : List (String × FieldValue) :=
  [("height", .num s.height),
   ("period", .num s.period),
   ("impact", .num s.impact),
   ("power", .num s.power),
   ("direction", .num s.direction),
   ("directionMin", .num s.directionMin),
   ("optimalScore", .int s.optimalScore)]

/-- Points written for one wave record by `insertWaveForecastToInflux`:
the wave point in both tag variants, then for every nested swell a
`swellForecast` point in both tag variants, reusing the wave record's
tag maps and timestamp. -/
def waveRecordPoints (spotId : String) (now : Int) (w : WaveData) :
    List Point :=
  ⟨"waveForecast", waveTagsWithAge spotId now w.timestamp, waveFields w, w.timestamp⟩ ::
  ⟨"waveForecast", waveTagsWithoutAge spotId, waveFields w, w.timestamp⟩ ::
  w.swells.flatMap (fun s =>
    [⟨"swellForecast", waveTagsWithAge spotId now w.timestamp, swellFields s, w.timestamp⟩,
     ⟨"swellForecast", waveTagsWithoutAge spotId, swellFields s, w.timestamp⟩])

/-- Translation of `insertWaveForecastToInflux`. -/
def wavePoints (spotId : String) (resp : WaveForecastResponse) (now : Int) :
    List Point :=
  resp.wave.flatMap (waveRecordPoints spotId now)

/-- Tag map `tagsWithAge` of `insertTideForecastToInflux`. -/
def tideTagsWithAge (spotId : String) (station : TideLocation) (now ts : Int) :
    List (String × String) :=
  [("location", formatLocation station.lat station.lon),
   ("name", station.name),
   ("spotId", spotId),
   ("spotName", getFriendlyNameForSpot spotId),
   ("age_h", toString (forecastAgeHours now ts))]

/-- Tag map `tagsWithoutAge` of `insertTideForecastToInflux`. -/
def tideTagsWithoutAge (spotId : String) (station : TideLocation) :
    List (String × String) :=
  [("location", formatLocation station.lat station.lon),
   ("name", station.name),
   ("spotId", spotId),
   ("spotName", getFriendlyNameForSpot spotId)]

/-- Field map of `insertTideForecastToInflux`. -/
def tideFields (t : TideInfo) : List (String × FieldValue) :=
  [("type", .str t.type),
   ("height", .num t.height),
   ("utcOffset", .int t.utcOffset)]

/-- Points written for one tide record by `insertTideForecastToInflux`. -/
def tideRecordPoints (spotId : String) (station : TideLocation) (now : Int)
    (t : TideInfo) : List Point :=
  [⟨"tideForecast", tideTagsWithAge spotId station now t.timestamp, tideFields t, t.timestamp⟩,
   ⟨"tideForecast", tideTagsWithoutAge spotId station, tideFields t, t.timestamp⟩]

/-- Translation of `insertTideForecastToInflux`. -/
def tidePoints (spotId : String) (resp : TideForecastResponse) (now : Int) :
    List Point :=
  resp.tides.flatMap (tideRecordPoints spotId resp.tideLocation now)

/-- Tag map `tagsWithAge` of `insertSpotForecastRatingToInflux`. -/
def ratingTagsWithAge (spotId ratingKey : String) (now ts : Int) :
    List (String × String) :=
  [("spotId", spotId),
   ("ratingKey", ratingKey),
   ("spotName", getFriendlyNameForSpot spotId),
   ("age_h", toString (forecastAgeHours now ts))]

/-- Tag map named `tagsWithoutAge` in `insertSpotForecastRatingToInflux`;
faithfully to the source it also carries the `age_h` entry. -/
def ratingTagsWithoutAge (spotId ratingKey : String) (now ts : Int) :
    List (String × String) :=
  [("spotId", spotId),
   ("ratingKey", ratingKey),
   ("spotName", getFriendlyNameForSpot spotId),
   ("age_h", toString (forecastAgeHours now ts))]

/-- Field map of `insertSpotForecastRatingToInflux`. -/
def ratingFields (r : RatingData) : List (String × FieldValue) :=
  [("ratingValue", .num r.ratingValue),
   ("utcOffset", .int r.utcOffset)]

/-- Points written for one rating record by
`insertSpotForecastRatingToInflux`.  Note two source peculiarities kept
faithfully: the measurement name is "spotForecast", and the map named
`tagsWithoutAge` also carries the `age_h` entry. -/
def ratingRecordPoints (spotId : String) (now : Int) (r : RatingData) :
    List Point :=
  [⟨"spotForecast", ratingTagsWithAge spotId r.ratingKey now r.timestamp,
    ratingFields r, r.timestamp⟩,
   ⟨"spotForecast", ratingTagsWithoutAge spotId r.ratingKey now r.timestamp,
    ratingFields r, r.timestamp⟩]

/-- Translation of `insertSpotForecastRatingToInflux`. -/
def ratingPoints (spotId : String) (resp : SpotForecastRatingResponse)
    (now : Int) : List Point :=
  resp.rating.flatMap (ratingRecordPoints spotId now)

/-! The write boundary.  `writeAPI.WritePoint` may fail per call; the Go
code checks each error, prints it, and unconditionally moves on to the
next write.  The sink is a function from the index of the write call
(within the whole `fetchAndInsert` run) to the outcome of that call. -/

/-- Outcome-annotated write log: every point the code attempted to
write, paired with the error (if any) the sink returned for it. -/
abbrev WriteLog := List (Point × Option String)

/-- Sequential writes of a point list through the sink, starting at
write-call index `start`.  Faithful to the Go loops: no early exit on a
write error, every point is attempted. -/
def writeSeq (sink : Nat → Option String) (start : Nat) :
    List Point → WriteLog
  | [] => []
  | p :: rest => (p, sink start) :: writeSeq sink (start + 1) rest

/-! The forecast client boundary (go-surfline-api).  Each operation
returns a Go `(resp, err)` pair; only the argument shapes used by
main.go are modelled: wind takes days, interval and the two boolean
flags, wave and rating take days and interval, tide takes only days. -/

/-- Forecast provider client as a record of pure operation results. -/
structure ForecastClient where
  getWindForecast : String → Nat → Nat → Bool → Bool →
    Option WindForecastResponse × Option String
  getWaveForecast : String → Nat → Nat →
    Option WaveForecastResponse × Option String
  getTideForecast : String → Nat →
    Option TideForecastResponse × Option String
  getSpotForecastRating : String → Nat → Nat →
    Option SpotForecastRatingResponse × Option String

/-- Which of the four fetch operations an error or panic refers to. -/
inductive Kind where
  | wind
  | wave
  | tide
  | rating
deriving DecidableEq, Repr

/-- Result of one `fetchAndInsert` call: `ok` models a nil error return,
`fetchError k e` models returning the `fmt.Errorf` wrapper around the
operation error `e` (a `none` payload is `%w` applied to a nil error),
and `nilPanic k` models the run dying on a nil-pointer dereference when
an insert function iterates over a nil response. -/
inductive FetchResult where
  | ok
  | fetchError (k : Kind) (e : Option String)
  | nilPanic (k : Kind)
deriving DecidableEq, Repr

/-- Full observable outcome of one `fetchAndInsert` call: the returned
error value plus the log of attempted sink writes in order. -/
structure FetchOutput where
  result : FetchResult
  log : WriteLog
deriving DecidableEq, Repr

/-- Translation of `fetchAndInsert` (main.go).  Faithful details:
* wind, tide, rating branches return the wrapped error when the client
  error is non-nil, otherwise run the corresponding insert function;
* the wave branch (main.go line 121) is inverted: it returns the error
  wrapper when the client error IS nil (wrapping the nil error), and
  runs `insertWaveForecastToInflux` on the response accompanying a
  non-nil error — dereferencing it, hence a panic on a nil response;
* insert functions iterate over the response (`resp.Data...`), so a nil
  response on any taken insert path is a nil-pointer panic that aborts
  the remaining operations;
* wind flags are the constants `true, true`; tide is fetched with
  `days` only. -/
def fetchAndInsert (spotId : String) (days timeInterval : Nat)
    (sink : Nat → Option String) (client : ForecastClient) (now : Int) :
    FetchOutput :=
  match client.getWindForecast spotId days timeInterval true true with
  | (_, some e) => ⟨.fetchError .wind (some e), []⟩
  | (none, none) => ⟨.nilPanic .wind, []⟩
  | (some windResp, none) =>
    let wlog := writeSeq sink 0 (windPoints spotId windResp now)
    match client.getWaveForecast spotId days timeInterval with
    | (_, none) => ⟨.fetchError .wave none, wlog⟩
    | (none, some _) => ⟨.nilPanic .wave, wlog⟩
    | (some waveResp, some _) =>
      let vlog := writeSeq sink wlog.length (wavePoints spotId waveResp now)
      match client.getTideForecast spotId days with
      | (_, some e) => ⟨.fetchError .tide (some e), wlog ++ vlog⟩
      | (none, none) => ⟨.nilPanic .tide, wlog ++ vlog⟩
      | (some tideResp, none) =>
        let tlog := writeSeq sink (wlog.length + vlog.length)
          (tidePoints spotId tideResp now)
        match client.getSpotForecastRating spotId days timeInterval with
        | (_, some e) => ⟨.fetchError .rating (some e), wlog ++ vlog ++ tlog⟩
        | (none, none) => ⟨.nilPanic .rating, wlog ++ vlog ++ tlog⟩
        | (some ratingResp, none) =>
          let rlog := writeSeq sink (wlog.length + vlog.length + tlog.length)
            (ratingPoints spotId ratingResp now)
          ⟨.ok, wlog ++ vlog ++ tlog ++ rlog⟩

/-- Lookahead constant from main.go line 72: `days, timeInterval := 5, 1`. -/
def mainDays : Nat := 5

/-- Sampling-interval constant from main.go line 72. -/
def mainTimeInterval : Nat := 1

/-! The per-spot goroutine and the collection loop of `main`.  Each
goroutine runs the retry loop below and sends exactly one message on a
buffered channel: `done` on success, `errMsg e` after the retry budget
is exhausted.  `main` then performs `len(cfg.Spots)` blocking
`select` receives over the two channels. -/

/-- Message a per-spot goroutine sends to `main`: `done` on `doneCh`,
`errMsg e` on `errCh`. -/
inductive Msg where
  | done
  | errMsg (e : Option String)
deriving DecidableEq, Repr

/-- Observable behaviour of one per-spot goroutine: number of
`fetchAndInsert` attempts made, durations (seconds) of the sleeps taken
between attempts in order, and the channel messages sent in order. -/
structure SpotRun where
  attempts : Nat
  delays : List Nat
  sent : List Msg
deriving DecidableEq, Repr

/-- Translation of the retry loop in the goroutine body of `main`
(lines 82-98).  `attempt n` is the error value of the `(n+1)`-th
`fetchAndInsert` call (`none` = success); `retries` is the loop
variable.  Per source: while `retries < maxRetries`, run the attempt;
on success send `done` and break; on failure increment `retries`, and
if the budget remains sleep `retryDelay` and continue, otherwise send
the error; the loop condition then fails and the goroutine ends. -/
def retryLoop (attempt : Nat → Option String) (retries : Nat) : SpotRun :=
  if _h : retries < maxRetries then
    match attempt retries with
    | none => ⟨1, [], [.done]⟩
    | some e =>
      if retries + 1 < maxRetries then
        let rest := retryLoop attempt (retries + 1)
        ⟨rest.attempts + 1, retryDelaySec :: rest.delays, rest.sent⟩
      else
        ⟨1, [], [.errMsg (some e)]⟩
  else ⟨0, [], []⟩
termination_by maxRetries - retries

/-- One spot's goroutine: the retry loop started with `retries := 0`. -/
def spotGoroutine (attempt : Nat → Option String) : SpotRun :=
  retryLoop attempt 0

/-- Orchestration in `main`: one goroutine per entry of the spots map
(`for _, spotID := range cfg.Spots`), each with its own attempt
behaviour. -/
def orchestrate (spots : List String)
    (attemptOf : String → Nat → Option String) : List SpotRun :=
  spots.map (fun s => spotGoroutine (attemptOf s))

/-- Total number of channel messages produced by all goroutines. -/
def totalSent (spots : List String)
    (attemptOf : String → Nat → Option String) : Nat :=
  ((orchestrate spots attemptOf).map (fun r => r.sent.length)).sum

/-- Number of blocking receives `main` performs before it may exit:
`for i := 0; i < len(cfg.Spots); i++ { select ... }`. -/
def mainReceiveCount (spots : List String) : Nat := spots.length

/-! Specification-side predicates used to state the dual-tagging claims,
and concrete fixtures used by witnesses. -/

/-- The dual-tagging contract as the spec states it for one record: the
two variant points share fields and timestamp, the first carries an
`age_h` tag, the second does not, and every other tag key has the same
value (map semantics via `List.lookup`). -/
def AgeVariantPair (pWith pWithout : Point) : Prop :=
  pWith.fields = pWithout.fields ∧
  pWith.timestamp = pWithout.timestamp ∧
  (List.lookup "age_h" pWith.tags).isSome = true ∧
  List.lookup "age_h" pWithout.tags = none ∧
  ∀ k, k ≠ "age_h" → List.lookup k pWith.tags = List.lookup k pWithout.tags

/-- What the rating emitter actually does: both variant points share
fields, timestamp and the whole tag map, which contains `age_h`. -/
def IdenticalVariantPair (pWith pWithout : Point) : Prop :=
  pWith.fields = pWithout.fields ∧
  pWith.timestamp = pWithout.timestamp ∧
  pWith.tags = pWithout.tags ∧
  (List.lookup "age_h" pWithout.tags).isSome = true

/-- A point list made of consecutive pairs each satisfying `P`: the
shape in which every insert function emits its points. -/
def PairedBy (P : Point → Point → Prop) : List Point → Prop
  | [] => True
  | [_] => False
  | p :: q :: rest => P p q ∧ PairedBy P rest

/-- Fixture wind record used in closed witnesses. -/
def sampleWind : WindDetail := ⟨1000, 12, 270, "Onshore", 15, 5, -7⟩

/-- Fixture coordinates. -/
def sampleLoc : Location := ⟨32, -117⟩

/-- Fixture swell component. -/
def sampleSwell : Swell := ⟨1, 2, 3, 4, 5, 6, 7⟩

/-- Fixture wave record with one swell. -/
def sampleWave : WaveData := ⟨2000, -7, 1, ⟨1, 2, 8, "Knee high", ⟨1, 3⟩⟩, 50, [sampleSwell]⟩

/-- Fixture tide record. -/
def sampleTide : TideInfo := ⟨3000, "HIGH", 2, -7⟩

/-- Fixture tide station. -/
def sampleStation : TideLocation := ⟨33, -118, "La Jolla"⟩

/-- Fixture rating record. -/
def sampleRating : RatingData := ⟨4000, -7, "overallRating", 3⟩

/-- Fixture wind response. -/
def sampleWindResp : WindForecastResponse := ⟨[sampleWind], sampleLoc⟩

/-- Fixture wave response. -/
def sampleWaveResp : WaveForecastResponse := ⟨[sampleWave]⟩

/-- Fixture tide response. -/
def sampleTideResp : TideForecastResponse := ⟨[sampleTide], sampleStation⟩

/-- Fixture rating response. -/
def sampleRatingResp : SpotForecastRatingResponse := ⟨[sampleRating]⟩

/-- Fixture client on which all four operations succeed. -/
def allOkClient : ForecastClient where
  getWindForecast := fun _ _ _ _ _ => (some sampleWindResp, none)
  getWaveForecast := fun _ _ _ => (some sampleWaveResp, none)
  getTideForecast := fun _ _ => (some sampleTideResp, none)
  getSpotForecastRating := fun _ _ _ => (some sampleRatingResp, none)

/-- Fixture client whose wave operation fails with a nil response while
the other operations succeed. -/
def waveFailClient : ForecastClient where
  getWindForecast := fun _ _ _ _ _ => (some sampleWindResp, none)
  getWaveForecast := fun _ _ _ => (none, some "connection reset")
  getTideForecast := fun _ _ => (some sampleTideResp, none)
  getSpotForecastRating := fun _ _ _ => (some sampleRatingResp, none)

/-- Fixture client that succeeds only when both wind feature flags are
true, agreeing with `allOkClient` exactly on the arguments the program
actually passes. -/
def flagSensitiveClient : ForecastClient where
  getWindForecast := fun _ _ _ f1 f2 =>
    if f1 && f2 then (some sampleWindResp, none) else (none, some "bad flags")
  getWaveForecast := fun _ _ _ => (some sampleWaveResp, none)
  getTideForecast := fun _ _ => (some sampleTideResp, none)
  getSpotForecastRating := fun _ _ _ => (some sampleRatingResp, none)

/-! Helper lemmas shared by several claims. -/

/-- Looking up a key other than the appended one ignores the appended
entry. -/
theorem lookup_append_right {β : Type} {k key : String} (hk : k ≠ key) :
    ∀ (l : List (String × β)) (v : β),
      List.lookup k (l ++ [(key, v)]) = List.lookup k l := by
  intro l v
  induction l with
  | nil =>
    simp only [List.nil_append, List.lookup, List.lookup_nil]
    rw [show (k == key) = false from beq_eq_false_iff_ne.mpr hk]
  | cons hd tl ih =>
    obtain ⟨a, b⟩ := hd
    simp only [List.cons_append, List.lookup]
    cases k == a <;> simp [ih]

/-- Concatenation preserves the paired shape. -/
theorem pairedBy_append {P : Point → Point → Prop} :
    ∀ {l1 l2 : List Point}, PairedBy P l1 → PairedBy P l2 →
      PairedBy P (l1 ++ l2)
  | [], _, _, h2 => h2
  | [_], _, h1, _ => absurd h1 (by simp [PairedBy])
  | _ :: _ :: _, _, h1, h2 => ⟨h1.1, pairedBy_append h1.2 h2⟩

/-- A flatMap whose pieces are all paired is paired. -/
theorem pairedBy_flatMap {α : Type} {P : Point → Point → Prop}
    {f : α → List Point} :
    ∀ {l : List α}, (∀ x ∈ l, PairedBy P (f x)) →
      PairedBy P (l.flatMap f)
  | [], _ => trivial
  | x :: xs, h => by
    rw [List.flatMap_cons]
    exact pairedBy_append (h x (List.mem_cons_self x xs))
      (pairedBy_flatMap fun y hy => h y (List.mem_cons_of_mem x hy))

/-- The wind variant pair satisfies the dual-tagging contract. -/
theorem windPair_age_variant (spotId : String) (loc : Location) (now : Int)
    (w : WindDetail) :
    AgeVariantPair
      ⟨"windForecast", windTagsWithAge spotId loc now w.timestamp, windFields w, w.timestamp⟩
      ⟨"windForecast", windTagsWithoutAge spotId loc, windFields w, w.timestamp⟩ := by
  refine ⟨rfl, rfl, rfl, rfl, fun k hk => ?_⟩
  exact lookup_append_right hk (windTagsWithoutAge spotId loc) _

/-- The wave variant pair (used both by the wave point and by every
swell point) satisfies the dual-tagging contract on its tag maps. -/
theorem waveTags_age_variant (spotId : String) (now ts : Int)
    (m : String) (fs : List (String × FieldValue)) :
    AgeVariantPair
      ⟨m, waveTagsWithAge spotId now ts, fs, ts⟩
      ⟨m, waveTagsWithoutAge spotId, fs, ts⟩ := by
  refine ⟨rfl, rfl, rfl, rfl, fun k hk => ?_⟩
  exact lookup_append_right hk (waveTagsWithoutAge spotId) _

/-- The tide variant pair satisfies the dual-tagging contract. -/
theorem tidePair_age_variant (spotId : String) (station : TideLocation)
    (now : Int) (t : TideInfo) :
    AgeVariantPair
      ⟨"tideForecast", tideTagsWithAge spotId station now t.timestamp, tideFields t, t.timestamp⟩
      ⟨"tideForecast", tideTagsWithoutAge spotId station, tideFields t, t.timestamp⟩ := by
  refine ⟨rfl, rfl, rfl, rfl, fun k hk => ?_⟩
  exact lookup_append_right hk (tideTagsWithoutAge spotId station) _

/-- C2 (amended claim): for wind, wave, swell and tide records the two
variant points of each record share field map and timestamp and their
tag maps differ exactly by the `age_h` entry; for rating records the
two points instead share the entire tag map, which carries `age_h` in
both variants. -/
theorem dualTagVariants_amended :
    (∀ spotId resp now, PairedBy AgeVariantPair (windPoints spotId resp now)) ∧
    (∀ spotId resp now, PairedBy AgeVariantPair (wavePoints spotId resp now)) ∧
    (∀ spotId resp now, PairedBy AgeVariantPair (tidePoints spotId resp now)) ∧
    (∀ spotId resp now, PairedBy IdenticalVariantPair (ratingPoints spotId resp now)) := by
  refine ⟨?_, ?_, ?_, ?_⟩
  · intro spotId resp now
    exact pairedBy_flatMap fun w _ => ⟨windPair_age_variant spotId resp.location now w, trivial⟩
  · intro spotId resp now
    refine pairedBy_flatMap fun w _ => ?_
    refine ⟨waveTags_age_variant spotId now w.timestamp _ _, ?_⟩
    exact pairedBy_flatMap fun s _ => ⟨waveTags_age_variant spotId now w.timestamp _ _, trivial⟩
  · intro spotId resp now
    exact pairedBy_flatMap fun t _ => ⟨tidePair_age_variant spotId resp.tideLocation now t, trivial⟩
  · intro spotId resp now
    exact pairedBy_flatMap fun r _ => ⟨⟨rfl, rfl, rfl, rfl⟩, trivial⟩

/-- C2 witness: the amended pairing facts at concrete inputs. -/
theorem dualTagVariants_amended_witness :
    PairedBy AgeVariantPair (windPoints "s" sampleWindResp 0) ∧
    PairedBy AgeVariantPair (wavePoints "s" sampleWaveResp 0) ∧
    PairedBy AgeVariantPair (tidePoints "s" sampleTideResp 0) ∧
    PairedBy IdenticalVariantPair (ratingPoints "s" sampleRatingResp 0) :=
  ⟨dualTagVariants_amended.1 "s" sampleWindResp 0,
   dualTagVariants_amended.2.1 "s" sampleWaveResp 0,
   dualTagVariants_amended.2.2.1 "s" sampleTideResp 0,
   dualTagVariants_amended.2.2.2 "s" sampleRatingResp 0⟩

/-- C2 counterexample: for a concrete rating record the point built
from the map named `tagsWithoutAge` also carries the `age_h` tag, so
the two rating variants do not differ by presence versus absence of
`age_h` as the claim states. -/
theorem rating_not_age_variant_counterexample :
    ¬ AgeVariantPair
      ((ratingRecordPoints "spot" 0 sampleRating).getD 0 ⟨"", [], [], 0⟩)
      ((ratingRecordPoints "spot" 0 sampleRating).getD 1 ⟨"", [], [], 0⟩) := by
  intro h
  have h4 := h.2.2.2.1
  revert h4
  decide

/-- C3 counterexample: the concrete rating record is emitted under
measurement "spotForecast", not "spotForecastRating". -/
theorem rating_measurement_counterexample :
    ((ratingRecordPoints "spot" 0 sampleRating).map Point.measurement
      = ["spotForecast", "spotForecast"]) ∧
    "spotForecast" ≠ "spotForecastRating" := ⟨rfl, by decide⟩

/-- C3 (amended claim): every rating point carries measurement
"spotForecast", and every emitted point's measurement is one of
windForecast, waveForecast, swellForecast, tideForecast, spotForecast. -/
theorem emitted_measurement_names_amended :
    (∀ spotId resp now, ∀ p ∈ ratingPoints spotId resp now,
       p.measurement = "spotForecast") ∧
    (∀ spotId resp now, ∀ p ∈ windPoints spotId resp now,
       p.measurement = "windForecast") ∧
    (∀ spotId resp now, ∀ p ∈ wavePoints spotId resp now,
       p.measurement = "waveForecast" ∨ p.measurement = "swellForecast") ∧
    (∀ spotId resp now, ∀ p ∈ tidePoints spotId resp now,
       p.measurement = "tideForecast") := by
  refine ⟨?_, ?_, ?_, ?_⟩
  · intro spotId resp now p hp
    simp only [ratingPoints, List.mem_flatMap, ratingRecordPoints,
      List.mem_cons, List.not_mem_nil, or_false] at hp
    obtain ⟨r, -, hp⟩ := hp
    rcases hp with rfl | rfl <;> rfl
  · intro spotId resp now p hp
    simp only [windPoints, List.mem_flatMap, windRecordPoints,
      List.mem_cons, List.not_mem_nil, or_false] at hp
    obtain ⟨w, -, hp⟩ := hp
    rcases hp with rfl | rfl <;> rfl
  · intro spotId resp now p hp
    simp only [wavePoints, List.mem_flatMap, waveRecordPoints,
      List.mem_cons] at hp
    obtain ⟨w, -, hp⟩ := hp
    rcases hp with rfl | rfl | hp
    · exact Or.inl rfl
    · exact Or.inl rfl
    · simp only [List.mem_flatMap, List.mem_cons, List.not_mem_nil,
        or_false] at hp
      obtain ⟨s, -, hp⟩ := hp
      rcases hp with rfl | rfl <;> exact Or.inr rfl
  · intro spotId resp now p hp
    simp only [tidePoints, List.mem_flatMap, tideRecordPoints,
      List.mem_cons, List.not_mem_nil, or_false] at hp
    obtain ⟨t, -, hp⟩ := hp
    rcases hp with rfl | rfl <;> rfl

/-- C3 witness: the amended statement applied to concrete points of
each measurement family. -/
theorem emitted_measurement_names_amended_witness :
    ((ratingPoints "s" sampleRatingResp 0).getD 0 ⟨"", [], [], 0⟩).measurement
      = "spotForecast" ∧
    ((windPoints "s" sampleWindResp 0).getD 0 ⟨"", [], [], 0⟩).measurement
      = "windForecast" ∧
    (((wavePoints "s" sampleWaveResp 0).getD 0 ⟨"", [], [], 0⟩).measurement
        = "waveForecast" ∨
     ((wavePoints "s" sampleWaveResp 0).getD 0 ⟨"", [], [], 0⟩).measurement
        = "swellForecast") ∧
    ((tidePoints "s" sampleTideResp 0).getD 0 ⟨"", [], [], 0⟩).measurement
      = "tideForecast" :=
  ⟨emitted_measurement_names_amended.1 "s" sampleRatingResp 0 _ (by decide),
   emitted_measurement_names_amended.2.1 "s" sampleWindResp 0 _ (by decide),
   emitted_measurement_names_amended.2.2.1 "s" sampleWaveResp 0 _ (by decide),
   emitted_measurement_names_amended.2.2.2 "s" sampleTideResp 0 _ (by decide)⟩

/-- C4 counterexample: at current time 0 and record timestamp 1800 the
code computes age 0, but the floor of -1800 seconds in hours is -1, so
the age tag is not the floor for negative non-whole-hour differences. -/
theorem forecastAgeHours_not_floor_counterexample :
    forecastAgeHours 0 1800 ≠ Int.fdiv (0 - 1800) 3600 := by decide

/-- C4 (amended claim): the computed age is the truncation toward zero
of (C - T)/3600: it coincides with the floor when T ≤ C or when the
difference is a whole number of hours, and exceeds the floor by one for
negative non-whole-hour differences; the computation is total, so
negative ages never fail. -/
theorem forecastAgeHours_amended (C T : Int) :
    (T ≤ C → forecastAgeHours C T = Int.fdiv (C - T) 3600) ∧
    ((3600 : Int) ∣ (C - T) → forecastAgeHours C T = Int.fdiv (C - T) 3600) ∧
    (C < T → ¬ (3600 : Int) ∣ (C - T) →
      forecastAgeHours C T = Int.fdiv (C - T) 3600 + 1) := by
  refine ⟨?_, ?_, ?_⟩
  · intro h
    unfold forecastAgeHours
    rw [Int.fdiv_eq_tdiv (by omega) (by norm_num)]
  · intro h
    unfold forecastAgeHours
    rw [Int.tdiv_eq_ediv_of_dvd h, Int.fdiv_eq_ediv _ (by norm_num)]
  · intro hlt hdvd
    unfold forecastAgeHours
    rw [Int.fdiv_eq_ediv _ (by norm_num)]
    have hmod : (C - T) % 3600 ≠ 0 := fun hc => hdvd (Int.dvd_of_emod_eq_zero hc)
    have h1 : (C - T).tdiv 3600 = -((-(C - T)).tdiv 3600) := by
      rw [Int.neg_tdiv, Int.neg_neg]
    have h2 : (-(C - T)).tdiv 3600 = (-(C - T)) / 3600 :=
      Int.tdiv_eq_ediv (by omega) (by norm_num)
    rw [h1, h2]
    omega

/-- C4 witness: the amended statement at whole-hour past, whole-hour
future, and fractional-hour future inputs. -/
theorem forecastAgeHours_amended_witness :
    forecastAgeHours 7200 0 = Int.fdiv (7200 - 0) 3600 ∧
    forecastAgeHours 0 7200 = Int.fdiv (0 - 7200) 3600 ∧
    forecastAgeHours 0 1800 = Int.fdiv (0 - 1800) 3600 + 1 :=
  ⟨(forecastAgeHours_amended 7200 0).1 (by decide),
   (forecastAgeHours_amended 0 7200).2.1 ⟨-2, by norm_num⟩,
   (forecastAgeHours_amended 0 1800).2.2 (by decide) (by decide)⟩

/-! Wave builder shape lemmas. -/

/-- No swell point carries the wave measurement name. -/
theorem swellPoints_filter_wave (spotId : String) (now ts : Int)
    (ss : List Swell) :
    ((ss.flatMap (fun s =>
      [⟨"swellForecast", waveTagsWithAge spotId now ts, swellFields s, ts⟩,
       ⟨"swellForecast", waveTagsWithoutAge spotId, swellFields s, ts⟩]) :
      List Point).filter (fun p => p.measurement == "waveForecast")) = [] := by
  induction ss with
  | nil => rfl
  | cons s ss ih => simp [List.flatMap_cons, List.filter_append, ih]

/-- Every swell point carries the swell measurement name. -/
theorem swellPoints_filter_swell (spotId : String) (now ts : Int)
    (ss : List Swell) :
    (((ss.flatMap (fun s =>
      [⟨"swellForecast", waveTagsWithAge spotId now ts, swellFields s, ts⟩,
       ⟨"swellForecast", waveTagsWithoutAge spotId, swellFields s, ts⟩]) :
      List Point).filter (fun p => p.measurement == "swellForecast")).length)
      = 2 * ss.length := by
  induction ss with
  | nil => rfl
  | cons s ss ih =>
    simp only [List.flatMap_cons, List.filter_append, List.length_append, ih,
      List.length_cons, List.filter_cons]
    norm_num
    omega

/-- Each swell contributes exactly two points. -/
theorem swellPoints_length (spotId : String) (now ts : Int)
    (ss : List Swell) :
    ((ss.flatMap (fun s =>
      [⟨"swellForecast", waveTagsWithAge spotId now ts, swellFields s, ts⟩,
       ⟨"swellForecast", waveTagsWithoutAge spotId, swellFields s, ts⟩]) :
      List Point).length) = 2 * ss.length := by
  induction ss with
  | nil => rfl
  | cons s ss ih =>
    simp only [List.flatMap_cons, List.length_append, ih, List.length_cons,
      List.length_nil]
    omega

/-- Every swell point inherits the wave record's timestamp and one of
the wave record's two tag maps. -/
theorem swellPoints_mem (spotId : String) (now ts : Int) (ss : List Swell) :
    ∀ p ∈ (ss.flatMap (fun s =>
      [⟨"swellForecast", waveTagsWithAge spotId now ts, swellFields s, ts⟩,
       ⟨"swellForecast", waveTagsWithoutAge spotId, swellFields s, ts⟩]) :
      List Point),
      p.timestamp = ts ∧
      (p.tags = waveTagsWithAge spotId now ts ∨
       p.tags = waveTagsWithoutAge spotId) := by
  intro p hp
  simp only [List.mem_flatMap, List.mem_cons, List.not_mem_nil, or_false] at hp
  obtain ⟨s, -, hp⟩ := hp
  rcases hp with rfl | rfl
  · exact ⟨rfl, Or.inl rfl⟩
  · exact ⟨rfl, Or.inr rfl⟩

/-- C7: for every wave record with N nested swells the builder emits
exactly 2*(N+1) points — the wave point in both tag variants plus each
swell point in both tag variants — and every emitted point carries the
parent wave record's timestamp and one of the parent's two tag maps. -/
theorem waveRecordPoints_shape (spotId : String) (now : Int) (w : WaveData) :
    (waveRecordPoints spotId now w).length = 2 * (w.swells.length + 1) ∧
    ((waveRecordPoints spotId now w).filter
      (fun p => p.measurement == "waveForecast")).length = 2 ∧
    ((waveRecordPoints spotId now w).filter
      (fun p => p.measurement == "swellForecast")).length = 2 * w.swells.length ∧
    ∀ p ∈ waveRecordPoints spotId now w,
      p.timestamp = w.timestamp ∧
      (p.tags = waveTagsWithAge spotId now w.timestamp ∨
       p.tags = waveTagsWithoutAge spotId) := by
  refine ⟨?_, ?_, ?_, ?_⟩
  · simp only [waveRecordPoints, List.length_cons,
      swellPoints_length spotId now w.timestamp w.swells]
    omega
  · simp only [waveRecordPoints, List.filter_cons,
      swellPoints_filter_wave spotId now w.timestamp w.swells]
    norm_num
  · simp only [waveRecordPoints, List.filter_cons]
    norm_num
    exact swellPoints_filter_swell spotId now w.timestamp w.swells
  · intro p hp
    simp only [waveRecordPoints, List.mem_cons] at hp
    rcases hp with rfl | rfl | hp
    · exact ⟨rfl, Or.inl rfl⟩
    · exact ⟨rfl, Or.inr rfl⟩
    · exact swellPoints_mem spotId now w.timestamp w.swells p hp

/-- C7 witness: the shape facts at a concrete one-swell wave record. -/
theorem waveRecordPoints_shape_witness :
    (waveRecordPoints "s" 0 sampleWave).length
      = 2 * (sampleWave.swells.length + 1) ∧
    ((waveRecordPoints "s" 0 sampleWave).filter
      (fun p => p.measurement == "waveForecast")).length = 2 ∧
    ((waveRecordPoints "s" 0 sampleWave).filter
      (fun p => p.measurement == "swellForecast")).length
      = 2 * sampleWave.swells.length ∧
    (((waveRecordPoints "s" 0 sampleWave).getD 2 ⟨"", [], [], 0⟩).timestamp
        = sampleWave.timestamp ∧
     (((waveRecordPoints "s" 0 sampleWave).getD 2 ⟨"", [], [], 0⟩).tags
        = waveTagsWithAge "s" 0 sampleWave.timestamp ∨
      ((waveRecordPoints "s" 0 sampleWave).getD 2 ⟨"", [], [], 0⟩).tags
        = waveTagsWithoutAge "s")) := by
  have h := waveRecordPoints_shape "s" 0 sampleWave
  exact ⟨h.1, h.2.1, h.2.2.1, h.2.2.2 _ (by decide)⟩

/-- C8: every point of a batch is attempted regardless of earlier write
failures (the log's points are exactly the batch, in order), each
write's individual outcome is recorded in the log at the point's own
position, and the fetch result does not depend on the sink at all, so
write failures are reported without being surfaced as fetch failures. -/
theorem writeFailures_isolated :
    (∀ (sink : Nat → Option String) (start : Nat) (pts : List Point),
       (writeSeq sink start pts).map Prod.fst = pts) ∧
    (∀ (sink : Nat → Option String) (start : Nat) (pts : List Point) (i : Nat),
       (writeSeq sink start pts)[i]?
         = pts[i]?.map (fun p => (p, sink (start + i)))) ∧
    (∀ spotId days ti (sink1 sink2 : Nat → Option String) client now,
       (fetchAndInsert spotId days ti sink1 client now).result
         = (fetchAndInsert spotId days ti sink2 client now).result) := by
  refine ⟨?_, ?_, ?_⟩
  · intro sink start pts
    induction pts generalizing start with
    | nil => rfl
    | cons p rest ih => simp [writeSeq, ih]
  · intro sink start pts i
    induction pts generalizing start i with
    | nil => simp [writeSeq]
    | cons p rest ih =>
      cases i with
      | zero => simp [writeSeq]
      | succ j =>
        simp only [writeSeq, List.getElem?_cons_succ, ih]
        rw [show start + (j + 1) = start + 1 + j by omega]
  · intro spotId days ti sink1 sink2 client now
    unfold fetchAndInsert
    rcases client.getWindForecast spotId days ti true true with ⟨_ | wr, _ | we⟩ <;>
      try rfl
    rcases client.getWaveForecast spotId days ti with ⟨_ | vr, _ | ve⟩ <;> try rfl
    rcases client.getTideForecast spotId days with ⟨_ | tr, _ | te⟩ <;> try rfl
    rcases client.getSpotForecastRating spotId days ti with ⟨_ | rr, _ | re⟩ <;>
      rfl

/-- C9: when the wind fetch succeeds and the wave fetch returns a nil
response together with a non-nil error, fetchAndInsert runs the wave
publication routine on the nil response, which dereferences it: the
attempt ends in a nil-pointer panic rather than an error return. -/
theorem waveError_branch_panics (spotId : String) (days ti : Nat)
    (sink : Nat → Option String) (client : ForecastClient) (now : Int)
    (wr : WindForecastResponse) (e : String)
    (hwind : client.getWindForecast spotId days ti true true = (some wr, none))
    (hwave : client.getWaveForecast spotId days ti = (none, some e)) :
    (fetchAndInsert spotId days ti sink client now).result = .nilPanic .wave := by
  unfold fetchAndInsert
  rw [hwind, hwave]

/-- C9 witness: the panic on the concrete wave-failing client. -/
theorem waveError_branch_panics_witness :
    (fetchAndInsert "s" 5 1 (fun _ => none) waveFailClient 0).result
      = FetchResult.nilPanic .wave :=
  waveError_branch_panics "s" 5 1 (fun _ => none) waveFailClient 0
    sampleWindResp "connection reset" rfl rfl

/-- C1: on the failing input where all four client operations succeed,
fetchAndInsert nevertheless reports a wave-forecast failure, because
the wave branch treats a nil error as the error path (inverted check,
main.go line 121); success of all four operations therefore does not
yield a nil return, contradicting the stated contract. -/
theorem fetchAndInsert_all_success_reports_failure (spotId : String)
    (days ti : Nat) (sink : Nat → Option String) (client : ForecastClient)
    (now : Int) (wr : WindForecastResponse) (vr : WaveForecastResponse)
    (tr : TideForecastResponse) (rr : SpotForecastRatingResponse)
    (hwind : client.getWindForecast spotId days ti true true = (some wr, none))
    (hwave : client.getWaveForecast spotId days ti = (some vr, none))
    (htide : client.getTideForecast spotId days = (some tr, none))
    (hrating : client.getSpotForecastRating spotId days ti = (some rr, none)) :
    (fetchAndInsert spotId days ti sink client now).result
      = .fetchError .wave none ∧
    (fetchAndInsert spotId days ti sink client now).result ≠ .ok := by
  refine ⟨?_, ?_⟩
  · unfold fetchAndInsert
    rw [hwind, hwave]
  · unfold fetchAndInsert
    rw [hwind, hwave]
    exact fun h => nomatch h

/-- C1 witness: the inverted-check failure on the all-success client. -/
theorem fetchAndInsert_all_success_reports_failure_witness :
    (fetchAndInsert "s" 5 1 (fun _ => none) allOkClient 0).result
      = FetchResult.fetchError .wave none ∧
    (fetchAndInsert "s" 5 1 (fun _ => none) allOkClient 0).result
      ≠ FetchResult.ok :=
  fetchAndInsert_all_success_reports_failure "s" 5 1 (fun _ => none)
    allOkClient 0 sampleWindResp sampleWaveResp sampleTideResp
    sampleRatingResp rfl rfl rfl rfl

/-- C10: main fixes the lookahead at 5 days and the sampling interval
at 1 hour for every spot, and fetchAndInsert consults the client only
at those arguments with the wind feature flags fixed to true, true: two
clients that agree on exactly those argument tuples produce identical
runs. -/
theorem fetch_parameters_fixed :
    mainDays = 5 ∧ mainTimeInterval = 1 ∧
    (∀ spotId days ti (sink : Nat → Option String)
       (c1 c2 : ForecastClient) now,
       c1.getWindForecast spotId days ti true true
         = c2.getWindForecast spotId days ti true true →
       c1.getWaveForecast spotId days ti = c2.getWaveForecast spotId days ti →
       c1.getTideForecast spotId days = c2.getTideForecast spotId days →
       c1.getSpotForecastRating spotId days ti
         = c2.getSpotForecastRating spotId days ti →
       fetchAndInsert spotId days ti sink c1 now
         = fetchAndInsert spotId days ti sink c2 now) := by
  refine ⟨rfl, rfl, ?_⟩
  intro spotId days ti sink c1 c2 now h1 h2 h3 h4
  unfold fetchAndInsert
  rw [h1, h2, h3, h4]

/-- C10 witness: a client that fails whenever either wind flag is false
is indistinguishable from the all-success client in an actual run,
because the program only ever passes true, true with the fixed window
arguments. -/
theorem fetch_parameters_fixed_witness :
    mainDays = 5 ∧ mainTimeInterval = 1 ∧
    fetchAndInsert "s" mainDays mainTimeInterval (fun _ => none) allOkClient 0
      = fetchAndInsert "s" mainDays mainTimeInterval (fun _ => none)
          flagSensitiveClient 0 :=
  ⟨fetch_parameters_fixed.1, fetch_parameters_fixed.2.1,
   fetch_parameters_fixed.2.2 "s" mainDays mainTimeInterval (fun _ => none)
     allOkClient flagSensitiveClient 0 rfl rfl rfl rfl⟩

/-- Every per-spot goroutine sends exactly one terminal channel
message, whatever the attempt outcomes. -/
theorem spotGoroutine_sends_exactly_one (attempt : Nat → Option String) :
    (spotGoroutine attempt).sent.length = 1 := by
  unfold spotGoroutine
  rw [retryLoop]
  cases h0 : attempt 0 with
  | none => simp [maxRetries]
  | some e0 =>
    rw [retryLoop]
    cases h1 : attempt 1 with
    | none => simp [maxRetries]
    | some e1 =>
      rw [retryLoop]
      cases h2 : attempt 2 with
      | none => simp [maxRetries]
      | some e2 => simp [maxRetries]

/-- C5: a spot whose attempts always fail is tried exactly 3 times with
a 5-second sleep between consecutive attempts and none after the last,
and its single reported outcome is the failure message of the third
attempt; and whenever an attempt succeeds within the budget the loop
stops there and reports success. -/
theorem retry_policy (attempt : Nat → Option String) (e0 e1 e2 : String)
    (h0 : attempt 0 = some e0) (h1 : attempt 1 = some e1)
    (h2 : attempt 2 = some e2) :
    spotGoroutine attempt
      = ⟨3, [retryDelaySec, retryDelaySec], [.errMsg (some e2)]⟩ ∧
    (∀ (g : Nat → Option String) (k : Nat), k < maxRetries →
      (∀ i, i < k → (g i).isSome = true) → g k = none →
      spotGoroutine g = ⟨k + 1, List.replicate k retryDelaySec, [.done]⟩) := by
  constructor
  · unfold spotGoroutine
    rw [retryLoop, h0, retryLoop, h1, retryLoop, h2]
    simp [maxRetries]
  · intro g k hk hfail hsucc
    unfold spotGoroutine
    simp only [maxRetries] at hk
    interval_cases k
    · rw [retryLoop, hsucc]
      simp [maxRetries]
    · obtain ⟨a0, ha0⟩ := Option.isSome_iff_exists.mp (hfail 0 (by norm_num))
      rw [retryLoop, ha0, retryLoop, hsucc]
      simp [maxRetries, List.replicate]
    · obtain ⟨a0, ha0⟩ := Option.isSome_iff_exists.mp (hfail 0 (by norm_num))
      obtain ⟨a1, ha1⟩ := Option.isSome_iff_exists.mp (hfail 1 (by norm_num))
      rw [retryLoop, ha0, retryLoop, ha1, retryLoop, hsucc]
      simp [maxRetries, List.replicate]

/-- C5 witness: the retry policy at an always-failing attempt function
and at a first-try success. -/
theorem retry_policy_witness :
    spotGoroutine (fun _ => some "boom")
      = ⟨3, [retryDelaySec, retryDelaySec], [.errMsg (some "boom")]⟩ ∧
    spotGoroutine (fun _ => none) = ⟨1, [], [.done]⟩ := by
  have h := retry_policy (fun _ => some "boom") "boom" "boom" "boom" rfl rfl rfl
  refine ⟨h.1, ?_⟩
  exact h.2 (fun _ => none) 0 (by decide)
    (fun i hi => absurd hi (Nat.not_lt_zero i)) rfl

/-- C6: every goroutine reports exactly one terminal outcome, so the
total number of produced messages equals the number of configured
spots, which is exactly the number of blocking receives the collection
loop performs before main may proceed: no outcome is dropped, no spot
reports twice, and the loop cannot complete before every goroutine has
reported. -/
theorem orchestrator_barrier (spots : List String)
    (attemptOf : String → Nat → Option String) :
    totalSent spots attemptOf = mainReceiveCount spots ∧
    ∀ r ∈ orchestrate spots attemptOf, r.sent.length = 1 := by
  constructor
  · unfold totalSent mainReceiveCount orchestrate
    induction spots with
    | nil => rfl
    | cons s ss ih =>
      simp only [List.map_cons, List.sum_cons, List.length_cons,
        spotGoroutine_sends_exactly_one] at *
      omega
  · intro r hr
    unfold orchestrate at hr
    obtain ⟨s, -, rfl⟩ := List.mem_map.mp hr
    exact spotGoroutine_sends_exactly_one _

/-- C6 witness: the barrier accounting on two concrete spots, one
always failing and one succeeding. -/
theorem orchestrator_barrier_witness :
    totalSent ["a", "b"]
        (fun s n => if s = "a" then some (toString n) else none)
      = mainReceiveCount ["a", "b"] ∧
    (spotGoroutine
        ((fun s n => if s = "a" then some (toString n) else none) "a")).sent.length
      = 1 := by
  have h := orchestrator_barrier ["a", "b"]
    (fun s n => if s = "a" then some (toString n) else none)
  exact ⟨h.1, h.2 _ (List.mem_map_of_mem _ (List.mem_cons_self _ _))⟩

end Surfline2Influxdb
